import Mathlib

/-!
Verification of the multi-provider content-generation pipeline
(`src/modules/content_generator.py`, `src/modules/keyword_research.py`,
`src/modules/image_generator.py`, `main.py`) against its specification.

The Python code is shallowly embedded: network calls are abstracted by
explicit outcome parameters (each provider call either raises or returns
text), randomness by an explicit sampler function, and the wall clock by an
explicit date/time parameter.  Raw provider strings are represented by their
`json.loads` outcome (`RawText`): every string either parses to a `Json`
value or fails to parse; the fallback template strings built with
`json.dumps` of concrete literals are represented by the parsed value they
round-trip to.
-/

namespace Ternak

/-- Json values: the embedding of the Python dict/list/str/int/bool/None
documents produced by `json.loads` and consumed by the generator. -/
inductive Json where
  | null : Json
  | bool (b : Bool) : Json
  | num (n : Int) : Json
  | str (s : String) : Json
  | arr (elems : List Json) : Json
  | obj (fields : List (String × Json)) : Json

/-- Raw provider/template text, represented by its `json.loads` outcome:
`parsed j` stands for any (necessarily non-empty) string that parses to the
Json value `j`; `unparsable s` stands for a string `s` that `json.loads`
rejects. -/
inductive RawText where
  | parsed (j : Json) : RawText
  | unparsable (s : String) : RawText

/-- Embedding of `json.loads` on `RawText`: `none` models the `json.JSONDecodeError`
exception path. -/
def jsonLoads : RawText → Option Json
  | .parsed j => some j
  | .unparsable _ => none

/-- Outcome of one provider API call in `_try_ai_generation`: the call either
raises an exception (network error, timeout, non-2xx, SDK error) or returns
the response text. -/
inductive CallOutcome where
  | raise : CallOutcome
  | ok (t : RawText) : CallOutcome

/-- The four text-generation providers, in the fixed priority order of
`_try_ai_generation` (sections 1-4 of that method). -/
inductive Provider where
  | openai : Provider
  | cohere : Provider
  | anthropic : Provider
  | huggingface : Provider
deriving DecidableEq

/-- Settings fields relevant to the verified claims, from
`src/utils/config.py` (`Settings`).  Absent environment variables default to
the empty string for keys, 3 for `max_images_per_article`, 50 for
`max_keywords_per_batch`, 1500 for `content_length`. -/
structure SettingsM where
  openaiApiKey : String
  cohereApiKey : String
  anthropicApiKey : String
  huggingfaceToken : String
  maxImagesPerArticle : Nat
  maxKeywordsPerBatch : Nat
  contentLength : Nat

/-- Default settings values of `src/utils/config.py` when no environment
variable is set. -/
def defaultSettings : SettingsM :=
  { openaiApiKey := ""
    cohereApiKey := ""
    anthropicApiKey := ""
    huggingfaceToken := ""
    maxImagesPerArticle := 3
    maxKeywordsPerBatch := 50
    contentLength := 1500 }

/-- Which AI clients `ContentGenerator._setup_ai_clients` left non-None. -/
structure Clients where
  openaiClient : Bool
  cohereClient : Bool
  anthropicClient : Bool
  hfClient : Bool

/-- Embedding of `ContentGenerator._setup_ai_clients`.  A Python key string is
truthy iff non-empty.  The Cohere and Anthropic clients additionally require
their SDK import to have succeeded (`cohere.Client` / `anthropic.Anthropic`
raise `NameError` otherwise, caught by the surrounding `try`).  The
HuggingFace client is created whenever the `transformers`/`huggingface_hub`
modules imported successfully (`TRANSFORMERS_AVAILABLE`); note that
`settings.huggingface_token` is never consulted. -/
def setupAiClients (s : SettingsM) (cohereAvailable anthropicAvailable transformersAvailable : Bool) :
    Clients :=
  { openaiClient := s.openaiApiKey != ""
    cohereClient := cohereAvailable && s.cohereApiKey != ""
    anthropicClient := anthropicAvailable && s.anthropicApiKey != ""
    hfClient := transformersAvailable }

/-- Per-provider call outcomes for one prompt.  A field is only consulted when
the corresponding client is configured; it abstracts the network behaviour of
that provider on the current prompt. -/
structure Outcomes where
  openai : CallOutcome
  cohere : CallOutcome
  anthropic : CallOutcome
  huggingface : CallOutcome

/-- Task kind argument of `_try_ai_generation` (the code passes the strings
"outline" and "content"; any string other than "outline" selects the content
template, which coincides with the two actual call sites). -/
inductive TaskType where
  | outline : TaskType
  | content : TaskType

/-- Parsed value of the `json.dumps` literal returned by
`_generate_simple_content` for task type "outline". -/
def simpleOutlineJson : Json :=
  .obj [
    ("title", .str ("Panduan Lengkap")),
    ("h1", .str ("Panduan Lengkap")),
    ("h2_sections", .arr [
      .obj [
        ("title", .str ("Pengenalan")),
        ("h3_subsections", .arr [.str ("Apa itu"), .str ("Manfaat"), .str ("Kegunaan")])],
      .obj [
        ("title", .str ("Cara Melakukan")),
        ("h3_subsections", .arr [.str ("Langkah-langkah"), .str ("Tips"), .str ("Perhatian")])]]),
    ("faq", .arr [.str ("Apa itu?"), .str ("Bagaimana cara?"), .str ("Apa manfaatnya?")]),
    ("conclusion", .str ("Kesimpulan"))]

/-- Parsed value of the `json.dumps` literal returned by
`_generate_simple_content` for the content task type. -/
def simpleContentJson : Json :=
  .obj [
    ("title", .str ("Panduan Lengkap")),
    ("meta_description", .str ("Panduan lengkap dan informatif")),
    ("content", .str ("<h2>Pengenalan</h2><p>Artikel informatif yang lengkap.</p>")),
    ("summary", .str ("Ringkasan artikel")),
    ("keywords", .arr [.str ("keyword")]),
    ("word_count", .num 500)]

/-- Embedding of `ContentGenerator._generate_simple_content`: the static,
network-free template returned when every provider has failed.  The code
returns `json.dumps` of a concrete literal; its parse is that literal. -/
def generateSimpleContent : TaskType → RawText
  | .outline => .parsed simpleOutlineJson
  | .content => .parsed simpleContentJson

/-- One numbered block of `_try_ai_generation`: if the client is configured
(`if self.xxx_client:`) the call is attempted; a raised exception is caught
and the block falls through (`none`), a returned text short-circuits. -/
def callStep (clientSet : Bool) (outcome : CallOutcome) : Option RawText :=
  if clientSet then
    match outcome with
    | .ok t => some t
    | .raise => none
  else none

/-- Embedding of `ContentGenerator._try_ai_generation`: the four provider
blocks in source order (OpenAI, Cohere, Anthropic, HuggingFace), each tried
at most once, first returned text wins; if every configured provider raises
(or none is configured) the static simple template is returned.  The prompt
argument of the Python method only influences provider behaviour, which is
abstracted by `Outcomes`. -/
def tryAiGeneration (c : Clients) (o : Outcomes) (taskType : TaskType) : RawText :=
  match callStep c.openaiClient o.openai with
  | some t => t
  | none =>
    match callStep c.cohereClient o.cohere with
    | some t => t
    | none =>
      match callStep c.anthropicClient o.anthropic with
      | some t => t
      | none =>
        match callStep c.hfClient o.huggingface with
        | some t => t
        | none => generateSimpleContent taskType

/-- Whether a provider block of `_try_ai_generation` ends in a `return`
(configured and the call returned text rather than raising). -/
def succeededCall (clientSet : Bool) (outcome : CallOutcome) : Bool :=
  clientSet &&
    match outcome with
    | .ok _ => true
    | .raise => false

/-- Providers against which `_try_ai_generation` issues a call, in the order
the calls happen: a provider block runs iff its client is configured and no
earlier block returned. -/
def attemptedProviders (c : Clients) (o : Outcomes) : List Provider :=
  (if c.openaiClient then [Provider.openai] else []) ++
  (if succeededCall c.openaiClient o.openai then [] else
    (if c.cohereClient then [Provider.cohere] else []) ++
    (if succeededCall c.cohereClient o.cohere then [] else
      (if c.anthropicClient then [Provider.anthropic] else []) ++
      (if succeededCall c.anthropicClient o.anthropic then [] else
        (if c.hfClient then [Provider.huggingface] else []))))

/-- Specification-side view of the chain: the configured providers in the
fixed static priority order, paired with their call outcomes. -/
def configuredChain (c : Clients) (o : Outcomes) : List (Provider × CallOutcome) :=
  (if c.openaiClient then [(Provider.openai, o.openai)] else []) ++
  (if c.cohereClient then [(Provider.cohere, o.cohere)] else []) ++
  (if c.anthropicClient then [(Provider.anthropic, o.anthropic)] else []) ++
  (if c.hfClient then [(Provider.huggingface, o.huggingface)] else [])

/-- First success along a chain: the provider and text of the first entry
whose call returned text. -/
def chainResult : List (Provider × CallOutcome) → Option (Provider × RawText)
  | [] => none
  | (p, .ok t) :: _ => some (p, t)
  | (_, .raise) :: rest => chainResult rest

/-- Providers a short-circuiting left-to-right traversal of the chain calls:
every entry up to and including the first success. -/
def chainAttempts : List (Provider × CallOutcome) → List Provider
  | [] => []
  | (p, .ok _) :: _ => [p]
  | (p, .raise) :: rest => p :: chainAttempts rest

/-- Helper for Python `str.title()`: uppercase every alphabetic character
that follows a non-alphabetic one, lowercase the rest (exact for ASCII). -/
def pyTitleAux : List Char → Bool → List Char
  | [], _ => []
  | ch :: rest, prevAlpha =>
    (if ch.isAlpha then (if prevAlpha then ch.toLower else ch.toUpper) else ch) ::
      pyTitleAux rest ch.isAlpha

/-- Embedding of Python `str.title()` (ASCII-exact). -/
def pyTitle (s : String) : String := String.mk (pyTitleAux s.data false)

/-- Embedding of Python `dict.get(key)` on a Json object (`None` when the key
is absent or the value is not a dict). -/
def jget (j : Json) (key : String) : Option Json :=
  match j with
  | .obj fields => (fields.find? (fun p => p.1 == key)).map (fun p => p.2)
  | _ => none

/-- Embedding of `ContentGenerator._create_fallback_outline`. -/
def createFallbackOutline (keyword : String) : Json :=
  .obj [
    ("title", .str ("Panduan Lengkap: " ++ pyTitle keyword)),
    ("h1", .str ("Panduan Lengkap: " ++ pyTitle keyword)),
    ("h2_sections", .arr [
      .obj [
        ("title", .str ("Apa itu " ++ keyword ++ "?")),
        ("h3_subsections", .arr [.str ("Definisi"), .str ("Manfaat"), .str ("Kegunaan")])],
      .obj [
        ("title", .str ("Cara " ++ keyword)),
        ("h3_subsections", .arr
          [.str ("Langkah-langkah"), .str ("Tips"), .str ("Hal yang Perlu Diperhatikan")])],
      .obj [
        ("title", .str ("Tips dan Trik " ++ keyword)),
        ("h3_subsections", .arr
          [.str ("Best Practices"), .str ("Kesalahan Umum"), .str ("Rekomendasi")])]]),
    ("faq", .arr [
      .str ("Apa itu " ++ keyword ++ "?"),
      .str ("Bagaimana cara " ++ keyword ++ "?"),
      .str ("Apa manfaat " ++ keyword ++ "?"),
      .str ("Berapa biaya " ++ keyword ++ "?"),
      .str ("Di mana bisa " ++ keyword ++ "?")]),
    ("conclusion", .str ("Kesimpulan tentang " ++ keyword))]

/-- Body HTML of `_create_fallback_content` (the `content` f-string literal,
with its source indentation). -/
def fallbackContentHtml (keyword : String) : String :=
  "\n            <h2>Apa itu " ++ keyword ++ "?</h2>\n            <p>" ++ keyword ++
  " adalah topik yang penting untuk dipahami. Dalam artikel ini, kita akan membahas secara mendalam tentang " ++
  keyword ++ ".</p>\n            \n            <h2>Cara " ++ keyword ++
  "</h2>\n            <p>Berikut adalah langkah-langkah untuk " ++ keyword ++
  ":</p>\n            <ol>\n                <li>Langkah pertama</li>\n                <li>Langkah kedua</li>\n                <li>Langkah ketiga</li>\n            </ol>\n            \n            <h2>Tips dan Trik</h2>\n            <p>Beberapa tips untuk " ++
  keyword ++
  ":</p>\n            <ul>\n                <li>Tip pertama</li>\n                <li>Tip kedua</li>\n                <li>Tip ketiga</li>\n            </ul>\n            \n            <div class=\"faq-section\">\n                <h3>FAQ</h3>\n                <div class=\"faq-item\">\n                    <div class=\"faq-question\">Apa itu " ++
  keyword ++ "?</div>\n                    <div>Jawaban tentang " ++ keyword ++
  ".</div>\n                </div>\n            </div>\n            "

/-- Embedding of `ContentGenerator._create_fallback_content`. -/
def createFallbackContent (keyword : String) (outline : Json) : Json :=
  .obj [
    ("title", (jget outline ("title")).getD (.str ("Panduan " ++ pyTitle keyword))),
    ("meta_description", .str ("Panduan lengkap tentang " ++ keyword ++
      ". Pelajari cara, tips, dan manfaat " ++ keyword ++ ".")),
    ("content", .str (fallbackContentHtml keyword)),
    ("summary", .str ("Artikel ini membahas tentang " ++ keyword ++ " secara lengkap.")),
    ("keywords", .arr [.str keyword, .str ("cara " ++ keyword), .str ("tips " ++ keyword)]),
    ("word_count", .num 500)]

/-- Embedding of `ContentGenerator.generate_outline`: `_try_ai_generation`
always returns a string; an empty or unparsable result (falsy string, or
`json.loads` raising inside the `try`) yields the fallback outline.  The
prompt built from keyword and research data only influences provider
behaviour, abstracted by `Outcomes`. -/
def generateOutline (keyword : String) (c : Clients) (o : Outcomes) : Json :=
  match jsonLoads (tryAiGeneration c o TaskType.outline) with
  | some j => j
  | none => createFallbackOutline keyword

/-- Embedding of `ContentGenerator.generate_content` (same shape as
`generate_outline`, with the content fallback). -/
def generateContent (keyword : String) (outline : Json) (c : Clients) (o : Outcomes) : Json :=
  match jsonLoads (tryAiGeneration c o TaskType.content) with
  | some j => j
  | none => createFallbackContent keyword outline

/-- Whether a Json value is a string. -/
def isStr : Json → Bool
  | .str _ => true
  | _ => false

/-- Schema check for one element of `h2_sections`: an object with a string
`title` and a `h3_subsections` array of strings (spec section 3, Outline). -/
def isSectionObj (j : Json) : Bool :=
  (match jget j ("title") with
   | some (.str _) => true
   | _ => false) &&
  (match jget j ("h3_subsections") with
   | some (.arr xs) => xs.all isStr
   | _ => false)

/-- Decidable outline-schema check, from the document shape requested by
`generate_outline` and described in spec section 3 (Outline): title, h1,
h2_sections (objects with title and h3_subsections), faq, conclusion. -/
def isOutlineSchema (j : Json) : Bool :=
  (match jget j ("title") with
   | some (.str _) => true
   | _ => false) &&
  (match jget j ("h1") with
   | some (.str _) => true
   | _ => false) &&
  (match jget j ("h2_sections") with
   | some (.arr xs) => xs.all isSectionObj
   | _ => false) &&
  (match jget j ("faq") with
   | some (.arr xs) => xs.all isStr
   | _ => false) &&
  (match jget j ("conclusion") with
   | some (.str _) => true
   | _ => false)

/-- Decidable content-schema check, from the document shape requested by
`generate_content` and described in spec section 3 (GeneratedContent):
title, meta_description, content, summary, keywords, word_count. -/
def isContentSchema (j : Json) : Bool :=
  (match jget j ("title") with
   | some (.str _) => true
   | _ => false) &&
  (match jget j ("meta_description") with
   | some (.str _) => true
   | _ => false) &&
  (match jget j ("content") with
   | some (.str _) => true
   | _ => false) &&
  (match jget j ("summary") with
   | some (.str _) => true
   | _ => false) &&
  (match jget j ("keywords") with
   | some (.arr xs) => xs.all isStr
   | _ => false) &&
  (match jget j ("word_count") with
   | some (.num _) => true
   | _ => false)

/-- Whether a Json document is non-empty: an object with at least one field. -/
def isNonEmptyDoc : Json → Bool
  | .obj fields => !fields.isEmpty
  | _ => false

/-- Predicate: every configured provider call fails; this also covers the
"none configured" case vacuously. -/
def allConfiguredFail (c : Clients) (o : Outcomes) : Prop :=
  (c.openaiClient = true → o.openai = .raise) ∧
  (c.cohereClient = true → o.cohere = .raise) ∧
  (c.anthropicClient = true → o.anthropic = .raise) ∧
  (c.hfClient = true → o.huggingface = .raise)

/-- The client flag of a given provider. -/
def clientConfigured (c : Clients) : Provider → Bool
  | .openai => c.openaiClient
  | .cohere => c.cohereClient
  | .anthropic => c.anthropicClient
  | .huggingface => c.hfClient

theorem tryAi_eq_chain (c : Clients) (o : Outcomes) (taskType : TaskType) :
    tryAiGeneration c o taskType =
      ((chainResult (configuredChain c o)).map Prod.snd).getD (generateSimpleContent taskType) := by
  obtain ⟨b1, b2, b3, b4⟩ := c
  obtain ⟨o1, o2, o3, o4⟩ := o
  cases b1 <;> cases b2 <;> cases b3 <;> cases b4 <;>
    cases o1 <;> cases o2 <;> cases o3 <;> cases o4 <;>
      simp [tryAiGeneration, configuredChain, chainResult, callStep]

theorem attempts_eq_chain (c : Clients) (o : Outcomes) :
    attemptedProviders c o = chainAttempts (configuredChain c o) := by
  obtain ⟨b1, b2, b3, b4⟩ := c
  obtain ⟨o1, o2, o3, o4⟩ := o
  cases b1 <;> cases b2 <;> cases b3 <;> cases b4 <;>
    cases o1 <;> cases o2 <;> cases o3 <;> cases o4 <;>
      simp [attemptedProviders, configuredChain, chainAttempts, succeededCall]

theorem attempts_sublist_order (c : Clients) (o : Outcomes) :
    List.Sublist (attemptedProviders c o)
      [Provider.openai, Provider.cohere, Provider.anthropic, Provider.huggingface] := by
  obtain ⟨b1, b2, b3, b4⟩ := c
  obtain ⟨o1, o2, o3, o4⟩ := o
  cases b1 <;> cases b2 <;> cases b3 <;> cases b4 <;>
    cases o1 <;> cases o2 <;> cases o3 <;> cases o4 <;>
      simp [attemptedProviders, succeededCall]

theorem chainAttempts_subset_chain (l : List (Provider × CallOutcome)) :
    ∀ p, p ∈ chainAttempts l → p ∈ l.map Prod.fst := by
  induction l with
  | nil => intro p hp; simp [chainAttempts] at hp
  | cons hd tl ih =>
    intro p hp
    obtain ⟨q, oc⟩ := hd
    cases oc with
    | ok t => simp [chainAttempts] at hp; simp [hp]
    | raise =>
      simp [chainAttempts] at hp
      rcases hp with hp | hp
      · simp [hp]
      · simp [ih p hp]

theorem mem_configuredChain_configured (c : Clients) (o : Outcomes) (p : Provider)
    (hp : p ∈ (configuredChain c o).map Prod.fst) : clientConfigured c p = true := by
  obtain ⟨b1, b2, b3, b4⟩ := c
  cases b1 <;> cases b2 <;> cases b3 <;> cases b4 <;>
    simp_all [configuredChain, clientConfigured] <;>
      rcases hp with h | h | h | h <;> simp_all [clientConfigured]

theorem mem_attempted_configured (c : Clients) (o : Outcomes) (p : Provider)
    (hp : p ∈ attemptedProviders c o) : clientConfigured c p = true :=
  mem_configuredChain_configured c o p
    (chainAttempts_subset_chain _ p (attempts_eq_chain c o ▸ hp))

theorem chainAttempts_getLast (l : List (Provider × CallOutcome)) (p : Provider) (t : RawText)
    (h : chainResult l = some (p, t)) : (chainAttempts l).getLast? = some p := by
  induction l with
  | nil => simp [chainResult] at h
  | cons hd tl ih =>
    obtain ⟨q, oc⟩ := hd
    cases oc with
    | ok u =>
      simp [chainResult] at h
      simp [chainAttempts, h.1]
    | raise =>
      simp [chainResult] at h
      have htl := ih h
      have hm : p ∈ (chainAttempts tl).getLast? := htl
      simpa [chainAttempts] using List.mem_getLast?_cons (y := q) hm

/-- C1: for every prompt (abstracted by the per-provider outcomes) and both
task kinds, when every configured text provider fails or none is configured,
`generate_outline` and `generate_content` return the non-empty, schema-valid
static fallback document of `_generate_simple_content` for their task kind;
the functions are total, so no exception reaches the caller. -/
theorem generation_fallback_on_total_failure (keyword : String) (outline : Json)
    (c : Clients) (o : Outcomes) (h : allConfiguredFail c o) :
    generateOutline keyword c o = simpleOutlineJson ∧
    isOutlineSchema (generateOutline keyword c o) = true ∧
    isNonEmptyDoc (generateOutline keyword c o) = true ∧
    generateContent keyword outline c o = simpleContentJson ∧
    isContentSchema (generateContent keyword outline c o) = true ∧
    isNonEmptyDoc (generateContent keyword outline c o) = true := by
  obtain ⟨h1, h2, h3, h4⟩ := h
  have e1 : callStep c.openaiClient o.openai = none := by
    cases hb : c.openaiClient
    · simp [callStep]
    · simp [callStep, h1 hb]
  have e2 : callStep c.cohereClient o.cohere = none := by
    cases hb : c.cohereClient
    · simp [callStep]
    · simp [callStep, h2 hb]
  have e3 : callStep c.anthropicClient o.anthropic = none := by
    cases hb : c.anthropicClient
    · simp [callStep]
    · simp [callStep, h3 hb]
  have e4 : callStep c.hfClient o.huggingface = none := by
    cases hb : c.hfClient
    · simp [callStep]
    · simp [callStep, h4 hb]
  have ht : ∀ taskType, tryAiGeneration c o taskType = generateSimpleContent taskType := by
    intro taskType
    simp [tryAiGeneration, e1, e2, e3, e4]
  have ho : generateOutline keyword c o = simpleOutlineJson := by
    simp [generateOutline, ht, generateSimpleContent, jsonLoads]
  have hc : generateContent keyword outline c o = simpleContentJson := by
    simp [generateContent, ht, generateSimpleContent, jsonLoads]
  refine ⟨ho, ?_, ?_, hc, ?_, ?_⟩
  · rw [ho]; rfl
  · rw [ho]; rfl
  · rw [hc]; rfl
  · rw [hc]; rfl

/-- Witness for C1 at a concrete input: all four providers configured and all
four calls raising. -/
theorem generation_fallback_on_total_failure_witness :
    allConfiguredFail ⟨true, true, true, true⟩ ⟨.raise, .raise, .raise, .raise⟩ ∧
    generateOutline ("diet sehat") ⟨true, true, true, true⟩ ⟨.raise, .raise, .raise, .raise⟩ =
      simpleOutlineJson := by
  have hfail : allConfiguredFail ⟨true, true, true, true⟩ ⟨.raise, .raise, .raise, .raise⟩ :=
    ⟨fun _ => rfl, fun _ => rfl, fun _ => rfl, fun _ => rfl⟩
  exact ⟨hfail,
    (generation_fallback_on_total_failure ("diet sehat") (Json.obj [])
      ⟨true, true, true, true⟩ ⟨.raise, .raise, .raise, .raise⟩ hfail).1⟩

/-- C5: for every prompt, `_try_ai_generation` attempts the providers in the
fixed static priority order OpenAI, Cohere, Anthropic, HuggingFace (the
attempted list is a sublist of that order, hence at most one attempt per
provider and no retry), stops at the first success, and returns the first
successful provider's text (or the static template when no configured
provider succeeds). -/
theorem provider_priority_first_success (c : Clients) (o : Outcomes) (taskType : TaskType) :
    tryAiGeneration c o taskType =
      ((chainResult (configuredChain c o)).map Prod.snd).getD (generateSimpleContent taskType) ∧
    attemptedProviders c o = chainAttempts (configuredChain c o) ∧
    List.Sublist (attemptedProviders c o)
      [Provider.openai, Provider.cohere, Provider.anthropic, Provider.huggingface] :=
  ⟨tryAi_eq_chain c o taskType, attempts_eq_chain c o, attempts_sublist_order c o⟩

/-- Configuration for the C2 counterexample: all four clients configured;
OpenAI returns syntactically invalid text, Cohere would return a valid
outline document. -/
def c2Clients : Clients := ⟨true, true, true, true⟩

/-- Outcomes for the C2 counterexample. -/
def c2Outcomes : Outcomes :=
  ⟨.ok (.unparsable ("not json")), .ok (.parsed simpleOutlineJson), .raise, .raise⟩

/-- C2 counterexample: with OpenAI returning unparsable text and Cohere ready
to return a valid outline, the code attempts only OpenAI — it does not
advance to Cohere as it would on a network error — and `generate_outline`
returns the static fallback outline instead of Cohere's document. -/
theorem invalid_text_no_advance_cex :
    attemptedProviders c2Clients c2Outcomes = [Provider.openai] ∧
    Provider.cohere ∉ attemptedProviders c2Clients c2Outcomes ∧
    generateOutline ("seo") c2Clients c2Outcomes = createFallbackOutline ("seo") ∧
    generateOutline ("seo") c2Clients c2Outcomes ≠ simpleOutlineJson := by
  refine ⟨rfl, by decide, rfl, ?_⟩
  intro h
  have := congrArg (fun j => jget j ("title")) h
  simp [generateOutline, tryAiGeneration, c2Clients, c2Outcomes, callStep, jsonLoads,
    createFallbackOutline, simpleOutlineJson, jget, pyTitle, pyTitleAux] at this

/-- C2 amended: when the first successful provider in the chain returns
syntactically invalid structured text, the orchestrator does not advance to
the next provider; `_try_ai_generation` returns that text unvalidated, the
caller's `json.loads` fails, and `generate_outline`/`generate_content`
return the static fallback document directly — the attempt sequence ends at
that provider. -/
theorem invalid_text_falls_back_directly (keyword : String) (outline : Json)
    (c : Clients) (o : Outcomes) (p : Provider) (s : String)
    (h : chainResult (configuredChain c o) = some (p, .unparsable s)) :
    generateOutline keyword c o = createFallbackOutline keyword ∧
    generateContent keyword outline c o = createFallbackContent keyword outline ∧
    (attemptedProviders c o).getLast? = some p := by
  have ho : ∀ taskType, tryAiGeneration c o taskType = .unparsable s := by
    intro taskType
    rw [tryAi_eq_chain, h]
    rfl
  refine ⟨?_, ?_, ?_⟩
  · simp [generateOutline, ho, jsonLoads]
  · simp [generateContent, ho, jsonLoads]
  · rw [attempts_eq_chain]
    exact chainAttempts_getLast _ p _ h

/-- Witness for the C2 amended theorem at the counterexample configuration. -/
theorem invalid_text_falls_back_directly_witness :
    generateOutline ("seo") c2Clients c2Outcomes = createFallbackOutline ("seo") ∧
    (attemptedProviders c2Clients c2Outcomes).getLast? = some Provider.openai := by
  have h := invalid_text_falls_back_directly ("seo") (Json.obj []) c2Clients c2Outcomes
    Provider.openai ("not json") rfl
  exact ⟨h.1, h.2.2⟩

/-- C3 counterexample: with every credential absent (default settings) but
the transformers library importable, `_setup_ai_clients` still configures the
HuggingFace client and `_try_ai_generation` issues a call against
HuggingFace — the provider is not skipped despite its absent credential. -/
theorem hf_attempted_without_credential_cex :
    defaultSettings.huggingfaceToken = "" ∧
    (setupAiClients defaultSettings true true true).hfClient = true ∧
    attemptedProviders (setupAiClients defaultSettings true true true)
      ⟨.raise, .raise, .raise, .raise⟩ = [Provider.huggingface] := by
  exact ⟨rfl, rfl, rfl⟩

/-- C3 amended: an absent credential causes the provider to be skipped for
OpenAI, Cohere and Anthropic (for every prompt, the provider is never
attempted); the HuggingFace client, however, is configured whenever the
transformers library is importable, independently of the
`huggingface_token` credential. -/
theorem credential_gating_amended (s : SettingsM) (ca aa ta : Bool) (o : Outcomes) :
    (s.openaiApiKey = "" →
      Provider.openai ∉ attemptedProviders (setupAiClients s ca aa ta) o) ∧
    (s.cohereApiKey = "" →
      Provider.cohere ∉ attemptedProviders (setupAiClients s ca aa ta) o) ∧
    (s.anthropicApiKey = "" →
      Provider.anthropic ∉ attemptedProviders (setupAiClients s ca aa ta) o) ∧
    (setupAiClients s ca aa ta).hfClient = ta := by
  refine ⟨?_, ?_, ?_, rfl⟩
  · intro hk hp
    have := mem_attempted_configured _ o _ hp
    simp [setupAiClients, clientConfigured, hk] at this
  · intro hk hp
    have := mem_attempted_configured _ o _ hp
    simp [setupAiClients, clientConfigured, hk] at this
  · intro hk hp
    have := mem_attempted_configured _ o _ hp
    simp [setupAiClients, clientConfigured, hk] at this

/-- Witness for the C3 amended theorem: with all credentials absent, OpenAI
is never attempted (and the HuggingFace flag equals library availability). -/
theorem credential_gating_amended_witness :
    Provider.openai ∉
      attemptedProviders (setupAiClients defaultSettings true true true)
        ⟨.raise, .raise, .raise, .raise⟩ ∧
    (setupAiClients defaultSettings true true true).hfClient = true := by
  have h := credential_gating_amended defaultSettings true true true
    ⟨.raise, .raise, .raise, .raise⟩
  exact ⟨h.1 rfl, h.2.2.2⟩

/-- Prefix words of `KeywordResearch._generate_keyword_variations`. -/
def variationPrefixes : List String :=
  ["cara", "tips", "panduan", "tutorial", "belajar", "mengenal"]

/-- Suffix words of `_generate_keyword_variations`. -/
def variationSuffixes : List String :=
  ["untuk pemula", "lengkap", "terbaik", "2024", "indonesia"]

/-- Question words of `_generate_keyword_variations`. -/
def variationQuestionWords : List String :=
  ["apa", "bagaimana", "kapan", "di mana", "mengapa"]

/-- Embedding of `KeywordResearch._generate_keyword_variations`: the three
loops append prefix forms, then suffix forms, then question forms. -/
def generateKeywordVariations (keyword : String) : List String :=
  (variationPrefixes.map (fun p => p ++ " " ++ keyword)) ++
  ((variationSuffixes.map (fun s => keyword ++ " " ++ s)) ++
  (variationQuestionWords.map (fun q => q ++ " " ++ keyword)))

/-- Embedding of `KeywordResearch._get_related_keywords`.  The Google/Bing
suggestion lists abstract the network responses (already truncated inside
their helpers); `raised` selects the `except` path.  Python `list(set(x))`
iterates the set in an unspecified order and is modeled by `List.dedup`:
the verified properties (length bound and duplicate-freedom) are invariant
under the ordering choice. -/
def getRelatedKeywords (keyword : String) (googleSuggestions bingSuggestions : List String)
    (raised : Bool) : List String :=
  if raised then generateKeywordVariations keyword
  else
    (((googleSuggestions ++ bingSuggestions) ++ generateKeywordVariations keyword).dedup).take 20

/-- Question patterns of `KeywordResearch._get_common_questions`. -/
def questionPatterns (keyword : String) : List String :=
  ["Apa itu " ++ keyword ++ "?",
   "Bagaimana cara " ++ keyword ++ "?",
   "Tips " ++ keyword ++ " untuk pemula",
   "Berapa biaya " ++ keyword ++ "?",
   "Di mana bisa " ++ keyword ++ "?",
   "Kapan waktu terbaik untuk " ++ keyword ++ "?",
   "Mengapa perlu " ++ keyword ++ "?",
   "Apa manfaat " ++ keyword ++ "?",
   "Berapa lama waktu " ++ keyword ++ "?",
   "Apa yang diperlukan untuk " ++ keyword ++ "?"]

/-- Embedding of `KeywordResearch._get_common_questions`; `realQuestions`
abstracts the (already capped) result of `_get_real_questions`. -/
def getCommonQuestions (keyword : String) (realQuestions : List String) (raised : Bool) :
    List String :=
  if raised then (questionPatterns keyword).take 10
  else (questionPatterns keyword ++ realQuestions).take 15

/-- One entry of the top-results list built by `_get_top_serp_results`. -/
structure SerpResult where
  title : String
  url : String
  domain : String

/-- Fallback SERP entries of `_get_top_serp_results` (also reused by
`_create_fallback_research`). -/
def fallbackSerpResults (keyword : String) : List SerpResult :=
  [⟨"Hasil pencarian untuk " ++ keyword, "#", "example.com"⟩,
   ⟨"Informasi tentang " ++ keyword, "#", "example.com"⟩,
   ⟨"Panduan " ++ keyword, "#", "example.com"⟩]

/-- Embedding of `KeywordResearch._get_top_serp_results`; `searchResults`
abstracts `_simple_web_search` plus `_extract_domain` (network-dependent
scraping and URL parsing); `raised` selects the `except` path. -/
def getTopSerpResults (keyword : String) (searchResults : List SerpResult) (raised : Bool) :
    List SerpResult :=
  if raised then fallbackSerpResults keyword else searchResults.take 5

/-- Competition record built by `_analyze_competition` (Indonesian labels:
Tinggi = High, Sulit = Hard, Sedang = Medium, Menengah = Moderate,
Rendah = Low, Mudah = Easy). -/
structure Competition where
  level : String
  difficulty : String
  uniqueDomains : Nat
  totalResults : Nat

/-- Embedding of `KeywordResearch._analyze_competition`: counts unique
domains (`len(set(domains))`, modeled by `dedup.length`) and thresholds at 4
and 2.  The `keyword` argument is unused, as in the source; the defensive
`except` branch is unreachable for the pure body and is not modeled. -/
def analyzeCompetition (_keyword : String) (topResults : List SerpResult) : Competition :=
  let domains := topResults.map (fun r => r.domain)
  let uniqueDomains := domains.dedup.length
  if uniqueDomains ≥ 4 then ⟨"Tinggi", "Sulit", uniqueDomains, topResults.length⟩
  else if uniqueDomains ≥ 2 then ⟨"Sedang", "Menengah", uniqueDomains, topResults.length⟩
  else ⟨"Rendah", "Mudah", uniqueDomains, topResults.length⟩

/-- Embedding of Python `str.split()` with no separator: split on whitespace
runs, dropping empty pieces. -/
def pySplitWs (s : String) : List String :=
  (s.split (fun ch => ch.isWhitespace)).filter (fun w => w != "")

/-- Embedding of `KeywordResearch._estimate_search_volume`: a pure function
of the keyword word count. -/
def estimateSearchVolume (keyword : String) : String :=
  let wordCount := (pySplitWs keyword).length
  if wordCount == 1 then "Tinggi (10K+ per bulan)"
  else if wordCount == 2 then "Sedang (1K-10K per bulan)"
  else "Rendah (<1K per bulan)"

/-- ResearchResult record of `research_keyword` (spec section 3). -/
structure ResearchResult where
  keyword : String
  relatedKeywords : List String
  questions : List String
  topResults : List SerpResult
  competition : Competition
  searchVolume : String
  researchDate : String

/-- Embedding of `KeywordResearch._create_fallback_research`; `date`
abstracts `time.strftime` at the call instant. -/
def createFallbackResearch (keyword : String) (date : String) : ResearchResult :=
  { keyword := keyword
    relatedKeywords := (generateKeywordVariations keyword).take 10
    questions :=
      ["Apa itu " ++ keyword ++ "?",
       "Bagaimana cara " ++ keyword ++ "?",
       "Tips " ++ keyword ++ " untuk pemula",
       "Berapa biaya " ++ keyword ++ "?",
       "Di mana bisa " ++ keyword ++ "?"]
    topResults := fallbackSerpResults keyword
    competition := ⟨"Sedang", "Menengah", 3, 5⟩
    searchVolume := "Sedang (1K-10K per bulan)"
    researchDate := date }

/-- Embedding of `KeywordResearch.research_keyword`: the five lookups in
order, with network responses and per-helper `except` paths as parameters;
`outerRaised` selects the top-level `except` path returning the fallback
research record. -/
def researchKeyword (keyword : String) (googleSuggestions bingSuggestions : List String)
    (relatedRaised : Bool) (realQuestions : List String) (questionsRaised : Bool)
    (searchResults : List SerpResult) (serpRaised : Bool) (outerRaised : Bool)
    (date : String) : ResearchResult :=
  if outerRaised then createFallbackResearch keyword date
  else
    { keyword := keyword
      relatedKeywords := getRelatedKeywords keyword googleSuggestions bingSuggestions relatedRaised
      questions := getCommonQuestions keyword realQuestions questionsRaised
      topResults := getTopSerpResults keyword searchResults serpRaised
      competition := analyzeCompetition keyword (getTopSerpResults keyword searchResults serpRaised)
      searchVolume := estimateSearchVolume keyword
      researchDate := date }

theorem cross_form_ne (p s keyword : String) (ch : Char)
    (h : p.data.count ch ≠ s.data.count ch) :
    p ++ " " ++ keyword ≠ keyword ++ " " ++ s := by
  intro he
  apply h
  have hd := congrArg String.data he
  simp only [String.data_append] at hd
  have hc := congrArg (List.count ch) hd
  simp only [List.count_append] at hc
  omega

theorem cross_words_differ :
    ∀ p ∈ variationPrefixes ++ variationQuestionWords, ∀ s ∈ variationSuffixes,
      ∃ ch ∈ p.data ++ s.data, p.data.count ch ≠ s.data.count ch := by decide

theorem prefix_form_injective (keyword : String) :
    Function.Injective (fun p : String => p ++ " " ++ keyword) := by
  intro a b h
  have hd := congrArg String.data h
  simp only [String.data_append] at hd
  exact String.ext (List.append_cancel_right (List.append_cancel_right hd))

theorem suffix_form_injective (keyword : String) :
    Function.Injective (fun s : String => keyword ++ " " ++ s) := by
  intro a b h
  have hd := congrArg String.data h
  simp only [String.data_append, List.append_assoc] at hd
  exact String.ext (List.append_cancel_left (List.append_cancel_left hd))

theorem variations_nodup (keyword : String) : (generateKeywordVariations keyword).Nodup := by
  have hcross : ∀ p ∈ variationPrefixes ++ variationQuestionWords,
      ∀ s ∈ variationSuffixes, p ++ " " ++ keyword ≠ keyword ++ " " ++ s := by
    intro p hp s hs
    obtain ⟨ch, _, hcnt⟩ := cross_words_differ p hp s hs
    exact cross_form_ne p s keyword ch hcnt
  unfold generateKeywordVariations
  rw [List.nodup_append]
  refine ⟨?_, ?_, ?_⟩
  · exact (by decide : variationPrefixes.Nodup).map (prefix_form_injective keyword)
  · rw [List.nodup_append]
    refine ⟨?_, ?_, ?_⟩
    · exact (by decide : variationSuffixes.Nodup).map (suffix_form_injective keyword)
    · exact (by decide : variationQuestionWords.Nodup).map (prefix_form_injective keyword)
    · intro x hx hy
      simp only [List.mem_map] at hx hy
      obtain ⟨s, hs, rfl⟩ := hx
      obtain ⟨q, hq, hqe⟩ := hy
      exact hcross q (by simp [hq]) s hs hqe
  · intro x hx hy
    simp only [List.mem_map] at hx
    obtain ⟨p, hp, rfl⟩ := hx
    rw [List.mem_append] at hy
    rcases hy with hy | hy
    · simp only [List.mem_map] at hy
      obtain ⟨s, hs, hse⟩ := hy
      exact hcross p (by simp [hp]) s hs hse.symm
    · simp only [List.mem_map] at hy
      obtain ⟨q, hq, hqe⟩ := hy
      have := prefix_form_injective keyword hqe.symm
      subst this
      exact (by decide : ∀ x ∈ variationPrefixes, x ∉ variationQuestionWords) p hp hq

theorem variations_length (keyword : String) :
    (generateKeywordVariations keyword).length = 16 := by
  simp [generateKeywordVariations, variationPrefixes, variationSuffixes, variationQuestionWords]

theorem getRelated_bounded_nodup (keyword : String) (google bing : List String) (raised : Bool) :
    (getRelatedKeywords keyword google bing raised).length ≤ 20 ∧
    (getRelatedKeywords keyword google bing raised).Nodup := by
  unfold getRelatedKeywords
  split
  · refine ⟨?_, variations_nodup keyword⟩
    rw [variations_length]
    omega
  · refine ⟨?_, (List.nodup_dedup _).sublist (List.take_sublist 20 _)⟩
    simp [List.length_take]

/-- C7: for all keywords and all network/exception scenarios (merged-lookup
path, `_get_related_keywords` exception path, and the top-level fallback
research path), `research_keyword` returns a `related_keywords` list of at
most 20 entries with no duplicates. -/
theorem research_related_keywords_bounded_nodup (keyword : String)
    (googleSuggestions bingSuggestions realQuestions : List String)
    (relatedRaised questionsRaised serpRaised outerRaised : Bool)
    (searchResults : List SerpResult) (date : String) :
    (researchKeyword keyword googleSuggestions bingSuggestions relatedRaised realQuestions
        questionsRaised searchResults serpRaised outerRaised date).relatedKeywords.length ≤ 20 ∧
    (researchKeyword keyword googleSuggestions bingSuggestions relatedRaised realQuestions
        questionsRaised searchResults serpRaised outerRaised date).relatedKeywords.Nodup := by
  unfold researchKeyword
  split
  · constructor
    · calc ((createFallbackResearch keyword date).relatedKeywords).length
          = ((generateKeywordVariations keyword).take 10).length := rfl
        _ ≤ 10 := by simp [List.length_take]
        _ ≤ 20 := by omega
    · exact (variations_nodup keyword).sublist (List.take_sublist 10 _)
  · have h := getRelated_bounded_nodup keyword googleSuggestions bingSuggestions relatedRaised
    exact ⟨h.1, h.2⟩

/-- Specification-side label function of the competition heuristic, from the
claim thresholds: at least 4 unique domains gives High/Hard ("Tinggi"/"Sulit"),
at least 2 gives Medium ("Sedang"/"Menengah"), otherwise Low/Easy
("Rendah"/"Mudah"). -/
def competitionLabelOfUnique (u : Nat) : String × String :=
  if 4 ≤ u then ("Tinggi", "Sulit")
  else if 2 ≤ u then ("Sedang", "Menengah")
  else ("Rendah", "Mudah")

/-- C8: `_analyze_competition` labels are a function of the number of unique
domains with thresholds 4 and 2; in particular five results on one domain
give Low, five distinct domains give High, and exactly four unique domains
among five results (the threshold boundary) give High. -/
theorem competition_function_of_unique_domains (keyword : String) (topResults : List SerpResult) :
    ((analyzeCompetition keyword topResults).level,
      (analyzeCompetition keyword topResults).difficulty) =
      competitionLabelOfUnique ((topResults.map (fun r => r.domain)).dedup.length) ∧
    (analyzeCompetition keyword
      [⟨"t1", "u1", "a"⟩, ⟨"t2", "u2", "a"⟩, ⟨"t3", "u3", "a"⟩, ⟨"t4", "u4", "a"⟩,
       ⟨"t5", "u5", "a"⟩]).level = "Rendah" ∧
    (analyzeCompetition keyword
      [⟨"t1", "u1", "a"⟩, ⟨"t2", "u2", "b"⟩, ⟨"t3", "u3", "c"⟩, ⟨"t4", "u4", "d"⟩,
       ⟨"t5", "u5", "e"⟩]).level = "Tinggi" ∧
    (analyzeCompetition keyword
      [⟨"t1", "u1", "a"⟩, ⟨"t2", "u2", "a"⟩, ⟨"t3", "u3", "b"⟩, ⟨"t4", "u4", "c"⟩,
       ⟨"t5", "u5", "d"⟩]).level = "Tinggi" := by
  refine ⟨?_, rfl, rfl, rfl⟩
  unfold analyzeCompetition competitionLabelOfUnique
  by_cases h4 : 4 ≤ (topResults.map (fun r => r.domain)).dedup.length
  · simp [h4, ge_iff_le]
  · by_cases h2 : 2 ≤ (topResults.map (fun r => r.domain)).dedup.length
    · simp [h4, h2, ge_iff_le]
    · simp [h4, h2, ge_iff_le]

/-- Static fallback image pool of `ImageGenerator` (`free_image_urls`). -/
def freeImageUrls : List String :=
  ["https://images.unsplash.com/photo-1506905925346-21bda4d32df4?w=800",
   "https://images.unsplash.com/photo-1557804506-669a67965ba0?w=800",
   "https://images.unsplash.com/photo-1560472354-b33ff0c44a43?w=800",
   "https://images.unsplash.com/photo-1551434678-e076c223a692?w=800",
   "https://images.unsplash.com/photo-1552664730-d307ca884978?w=800"]

/-- Embedding of `ImageGenerator._get_fallback_images`:
`random.sample(self.free_image_urls, min(3, len(self.free_image_urls)))`.
The `sampler` argument abstracts `random.sample`; its contract — the sample
has exactly the requested size when that size is at most the population
size — is a hypothesis of the theorems that need it. -/
def getFallbackImages (_keyword : String) (sampler : List String → Nat → List String) :
    List String :=
  sampler freeImageUrls (min 3 freeImageUrls.length)

/-- Embedding of `ImageGenerator._save_images_locally`: each URL is fetched
and written to `output/images/<keyword with underscores>/image_<i+1>.jpg`;
URLs whose retrieval fails (abstracted by `retrieveOk`) are dropped without
aborting. -/
def saveImagesLocally (keyword : String) (retrieveOk : Nat → Bool)
    (imageUrls : List String) : List String :=
  (List.range imageUrls.length).filterMap (fun i =>
    if retrieveOk i then
      some ("output/images/" ++ keyword.replace (" ") ("_") ++ "/image_" ++
        toString (i + 1) ++ ".jpg")
    else none)

/-- Embedding of `ImageGenerator.generate_images`: AI images, then stock
images, then — only if still below the cap — the static fallback pool; the
merged list is saved locally and truncated to `max_images_per_article`.
`saveRaises` models an exception escaping the `try` body (realistically the
un-guarded `os.makedirs` in `_save_images_locally`); the `except` branch
returns `_get_fallback_images` directly, without truncation. -/
def generateImages (cap : Nat) (keyword : String) (aiImages stockImages : List String)
    (sampler : List String → Nat → List String) (retrieveOk : Nat → Bool)
    (saveRaises : Bool) : List String :=
  if saveRaises then getFallbackImages keyword sampler
  else
    let images := aiImages ++ stockImages
    let images :=
      if images.length < cap then images ++ getFallbackImages keyword sampler else images
    (saveImagesLocally keyword retrieveOk images).take cap

/-- Sampler modelling one possible behaviour of `random.sample`: returning
the first `k` pool entries. -/
def takeSampler : List String → Nat → List String := fun l k => l.take k

/-- Retrieval oracle under which every image download fails. -/
def noRetrieval : Nat → Bool := fun _ => false

/-- C6 counterexample: with the cap configured to 2
(`MAX_IMAGES_PER_ARTICLE=2`) and an exception escaping the `try` body, the
`except` branch returns the 3-element static fallback sample unchanged —
the returned ImageSet exceeds the configured cap.  (The sampler used is a
legitimate `random.sample` outcome: 3 distinct entries of the pool.) -/
theorem images_exceed_cap_cex :
    (getFallbackImages ("seo") takeSampler).length = 3 ∧
    (getFallbackImages ("seo") takeSampler).Nodup ∧
    List.Sublist (getFallbackImages ("seo") takeSampler) freeImageUrls ∧
    (generateImages 2 ("seo") [] [] takeSampler noRetrieval true).length = 3 ∧
    ¬ ((generateImages 2 ("seo") [] [] takeSampler noRetrieval true).length ≤ 2) := by
  refine ⟨rfl, by decide, by decide, rfl, by decide⟩

/-- C6 amended: `generate_images` returns at most `cap` entries on every
non-exception path (including when the static fallback pool tops up a short
pool); on the exception path it returns exactly `min 3 5 = 3` static
fallback entries regardless of the cap, so the claimed 0-to-cap bound holds
for every failure scenario exactly when the configured cap is at least 3
(in particular at the default cap 3). -/
theorem images_within_cap_amended (cap : Nat) (keyword : String)
    (aiImages stockImages : List String) (sampler : List String → Nat → List String)
    (retrieveOk : Nat → Bool) (saveRaises : Bool)
    (hsampler : ∀ l k, k ≤ l.length → (sampler l k).length = k) :
    (saveRaises = false →
      (generateImages cap keyword aiImages stockImages sampler retrieveOk saveRaises).length
        ≤ cap) ∧
    (saveRaises = true →
      (generateImages cap keyword aiImages stockImages sampler retrieveOk saveRaises).length
        = min 3 freeImageUrls.length) ∧
    (3 ≤ cap →
      (generateImages cap keyword aiImages stockImages sampler retrieveOk saveRaises).length
        ≤ cap) := by
  have hfb : (getFallbackImages keyword sampler).length = min 3 freeImageUrls.length :=
    hsampler _ _ (min_le_right 3 _)
  refine ⟨?_, ?_, ?_⟩
  · intro hs
    subst hs
    simp only [generateImages, if_neg Bool.false_ne_true]
    simp [List.length_take]
  · intro hs
    subst hs
    simpa [generateImages] using hfb
  · intro hcap
    cases saveRaises with
    | false =>
      simp only [generateImages, if_neg Bool.false_ne_true]
      simp [List.length_take]
    | true =>
      have he : generateImages cap keyword aiImages stockImages sampler retrieveOk true
          = getFallbackImages keyword sampler := by
        simp [generateImages]
      rw [he, hfb]
      exact le_trans (min_le_left 3 _) hcap

/-- Witness for the C6 amended theorem at the default cap 3, exception path. -/
theorem images_within_cap_amended_witness :
    (generateImages 3 ("seo") [] [] takeSampler noRetrieval true).length ≤ 3 := by
  have h := images_within_cap_amended 3 ("seo") [] [] takeSampler noRetrieval true
    (fun l k hk => by simpa [takeSampler] using hk)
  exact h.2.2 (by omega)

/-- ContentResponse payload assembled for a successfully processed keyword
in the `/process-keywords` endpoint (research data, generated content,
images, assembled HTML). -/
structure ContentResponseM where
  researchData : ResearchResult
  content : Json
  images : List String
  htmlContent : String

/-- One entry of the `results` list built by `process_keywords`: the inner
`try` appends a success record, the inner `except` appends an error record
carrying the keyword and the exception message. -/
inductive ResultEntry where
  | success (keyword : String) (response : ContentResponseM) : ResultEntry
  | error (keyword : String) (message : String) : ResultEntry

/-- Keyword a result entry is recorded against. -/
def entryKeyword : ResultEntry → String
  | .success k _ => k
  | .error k _ => k

/-- Embedding of the batch loop of `main.process_keywords`: the request
keywords truncated to `settings.max_keywords_per_batch`, each processed by
the pipeline body (steps 1-7 inside the inner `try`, abstracted by `run`:
research, outline, content, images, HTML assembly and file write, optional
publish), with any exception caught and recorded against the keyword. -/
def processKeywords (maxBatch : Nat) (keywords : List String)
    (run : String → Except String ContentResponseM) : List ResultEntry :=
  (keywords.take maxBatch).map (fun kw =>
    match run kw with
    | .ok r => .success kw r
    | .error e => .error kw e)

/-- Endpoint response of `/process-keywords`: status, results, and
`total_processed = len(results)`. -/
structure BatchResponse where
  status : String
  results : List ResultEntry
  totalProcessed : Nat

/-- Embedding of the return value of `main.process_keywords`. -/
def processKeywordsEndpoint (maxBatch : Nat) (keywords : List String)
    (run : String → Except String ContentResponseM) : BatchResponse :=
  { status := "success"
    results := processKeywords maxBatch keywords run
    totalProcessed := (processKeywords maxBatch keywords run).length }

theorem processKeywords_getElem (maxBatch : Nat) (keywords : List String)
    (run : String → Except String ContentResponseM) (j : Nat) (kw : String)
    (hj : j < maxBatch) (hkw : keywords[j]? = some kw) :
    (processKeywords maxBatch keywords run)[j]? =
      some (match run kw with
            | .ok r => .success kw r
            | .error e => .error kw e) := by
  unfold processKeywords
  rw [List.getElem?_map, List.getElem?_take_of_lt hj, hkw]
  rfl

/-- C9: during batch processing, an exception raised while processing one
keyword is caught and recorded as an error entry against that keyword at its
position, and every keyword of the processed prefix — including all
subsequent ones — still receives its own result entry (processing is not
stopped). -/
theorem batch_error_recorded_and_continues (maxBatch : Nat) (keywords : List String)
    (run : String → Except String ContentResponseM) (i : Nat) (kw e : String)
    (hi : i < maxBatch) (hkw : keywords[i]? = some kw) (herr : run kw = .error e) :
    (processKeywords maxBatch keywords run)[i]? = some (.error kw e) ∧
    (processKeywords maxBatch keywords run).length = min maxBatch keywords.length ∧
    (∀ j kw2, j < maxBatch → keywords[j]? = some kw2 →
      (processKeywords maxBatch keywords run)[j]? =
        some (match run kw2 with
              | .ok r => .success kw2 r
              | .error e2 => .error kw2 e2)) := by
  refine ⟨?_, ?_, ?_⟩
  · rw [processKeywords_getElem maxBatch keywords run i kw hi hkw, herr]
  · simp [processKeywords, List.length_take]
  · intro j kw2 hj hkw2
    exact processKeywords_getElem maxBatch keywords run j kw2 hj hkw2

/-- Pipeline oracle for the C9 witness: the keyword "b" raises, the others
succeed with a fallback payload. -/
def c9Run : String → Except String ContentResponseM :=
  fun kw =>
    if kw == "b" then .error ("boom")
    else .ok ⟨createFallbackResearch kw ("d"), Json.obj [], [], ""⟩

/-- Witness for C9: a three-keyword batch whose middle keyword raises; the
error is recorded at its position and the last keyword is still processed. -/
theorem batch_error_recorded_and_continues_witness :
    (processKeywords 50 ["a", "b", "c"] c9Run)[1]? = some (.error ("b") ("boom")) ∧
    (processKeywords 50 ["a", "b", "c"] c9Run).length = min 50 3 := by
  have h := batch_error_recorded_and_continues 50 ["a", "b", "c"] c9Run
    1 ("b") ("boom") (by omega) rfl rfl
  exact ⟨h.1, h.2.1⟩

/-- C10: `process_keywords` processes at most the first
`max_keywords_per_batch` keywords of the request: the results list is
exactly the image of that prefix (entry `j` is recorded against keyword `j`
of the prefix), its length is `min maxBatch keywords.length`, and no entry
exists at any index at or beyond the cap — keywords beyond the prefix are
neither processed nor reported.  The default cap of
`src/utils/config.py` is 50. -/
theorem batch_prefix_truncation (maxBatch : Nat) (keywords : List String)
    (run : String → Except String ContentResponseM) :
    (processKeywords maxBatch keywords run).length = min maxBatch keywords.length ∧
    (∀ j, maxBatch ≤ j → (processKeywords maxBatch keywords run)[j]? = none) ∧
    (∀ j : Nat, ((processKeywords maxBatch keywords run)[j]?).map entryKeyword =
      (keywords.take maxBatch)[j]?) ∧
    defaultSettings.maxKeywordsPerBatch = 50 := by
  refine ⟨?_, ?_, ?_, rfl⟩
  · simp [processKeywords, List.length_take]
  · intro j hj
    have hlen : (processKeywords maxBatch keywords run).length ≤ j :=
      calc (processKeywords maxBatch keywords run).length
          = min maxBatch keywords.length := by simp [processKeywords, List.length_take]
        _ ≤ maxBatch := min_le_left _ _
        _ ≤ j := hj
    exact List.getElem?_eq_none hlen
  · intro j
    unfold processKeywords
    rw [List.getElem?_map]
    cases hkw : (keywords.take maxBatch)[j]? with
    | none => rfl
    | some kw =>
      cases hr : run kw <;> simp [entryKeyword, hr]

/-- Pipeline oracle for the C10 witness: every keyword raises. -/
def failRun : String → Except String ContentResponseM := fun _ => .error ("x")

/-- Witness for C10: a 3-keyword request with the cap configured to 2 — two
entries are produced and index 2 reports nothing. -/
theorem batch_prefix_truncation_witness :
    (processKeywords 2 ["a", "b", "c"] failRun).length = min 2 3 ∧
    (processKeywords 2 ["a", "b", "c"] failRun)[2]? = none := by
  have h := batch_prefix_truncation 2 ["a", "b", "c"] failRun
  exact ⟨h.1, h.2.1 2 (by omega)⟩

mutual

/-- Python `str()` of a `json.loads` value, as interpolated by the f-string
in `build_html`: a string is inserted verbatim, an int in decimal,
True/False/None by name, and containers by their repr.  Nested strings are
rendered with single quotes and without escaping — exact for the quote-free
and backslash-free strings arising here. -/
def pyStr : Json → String
  | .null => "None"
  | .bool b => if b then "True" else "False"
  | .num n => toString n
  | .str s => s
  | .arr elems => "[" ++ pyStrList elems ++ "]"
  | .obj fields => "\x7b" ++ pyStrFields fields ++ "\x7d"

/-- Python `repr()` of a value nested inside a container (strings quoted). -/
def pyStrRepr : Json → String
  | .null => "None"
  | .bool b => if b then "True" else "False"
  | .num n => toString n
  | .str s => "\x27" ++ s ++ "\x27"
  | .arr elems => "[" ++ pyStrList elems ++ "]"
  | .obj fields => "\x7b" ++ pyStrFields fields ++ "\x7d"

/-- Comma-separated repr of list elements. -/
def pyStrList : List Json → String
  | [] => ""
  | [j] => pyStrRepr j
  | j :: rest => pyStrRepr j ++ ", " ++ pyStrList rest

/-- Comma-separated repr of dict fields. -/
def pyStrFields : List (String × Json) → String
  | [] => ""
  | [(k, v)] => "\x27" ++ k ++ "\x27: " ++ pyStrRepr v
  | (k, v) :: rest => "\x27" ++ k ++ "\x27: " ++ pyStrRepr v ++ ", " ++ pyStrFields rest

end

/-- Rendering of `content.get(key, default-string)` inside the `build_html`
f-string: a present key renders via Python `str()`, an absent key renders
the (string) default. -/
def getFStr (content : Json) (key : String) (dflt : String) : String :=
  match jget content key with
  | some v => pyStr v
  | none => dflt

/-- Embedding of the keywords meta value
`', '.join(content.get('keywords', []))`: joining a list concatenates its
elements (exact when they are strings), joining a string iterates its
characters, joining a dict iterates its keys; joining an int/bool/None
raises `TypeError` in Python and is totalised here via `pyStr` (a shape no
code path of the repository produces). -/
def joinedKeywords (content : Json) : String :=
  match jget content ("keywords") with
  | some (.arr elems) => String.intercalate (", ") (elems.map pyStr)
  | some (.str s) => String.intercalate (", ") (s.data.map (fun ch => String.mk [ch]))
  | some (.obj fields) => String.intercalate (", ") (fields.map (fun p => p.1))
  | some v => pyStr v
  | none => ""

/-- Embedding of `ContentGenerator._build_image_html`: empty string for no
images, otherwise one container div with an img tag per image (alt text
numbered from 1). -/
def buildImageHtml (images : List String) : String :=
  if images.isEmpty then ""
  else
    "<div class=\"image-container\">" ++
    String.join (images.enum.map (fun p =>
      "<img src=\"" ++ p.2 ++ "\" alt=\"Gambar " ++ toString (p.1 + 1) ++ "\" />")) ++
    "</div>"

/-- Template text of `build_html` before the title interpolation. -/
def htmlChunk1 : String :=
  "\n        <!DOCTYPE html>\n        <html lang=\"id\">\n        <head>\n            <meta charset=\"UTF-8\">\n            <meta name=\"viewport\" content=\"width=device-width, initial-scale=1.0\">\n            <title>"

/-- Template text between the title and the meta description. -/
def htmlChunk2 : String :=
  "</title>\n            <meta name=\"description\" content=\""

/-- Template text between the meta description and the keywords meta tag. -/
def htmlChunk3 : String :=
  "\">\n            <meta name=\"keywords\" content=\""

/-- CSS rules of the template (the doubled braces of the f-string render as
the single braces written \x7b and \x7d here). -/
def buildHtmlCss : String :=
  "                body \x7b\n                    font-family: \x27Segoe UI\x27, Tahoma, Geneva, Verdana, sans-serif;\n                    line-height: 1.6;\n                    color: #333;\n                    max-width: 800px;\n                    margin: 0 auto;\n                    padding: 20px;\n                    background-color: #f9f9f9;\n                \x7d\n                .article-container \x7b\n                    background: white;\n                    padding: 30px;\n                    border-radius: 10px;\n                    box-shadow: 0 2px 10px rgba(0,0,0,0.1);\n                \x7d\n                h1 \x7b\n                    color: #2c3e50;\n                    font-size: 2.5em;\n                    margin-bottom: 20px;\n                    border-bottom: 3px solid #3498db;\n                    padding-bottom: 10px;\n                \x7d\n                h2 \x7b\n                    color: #34495e;\n                    font-size: 1.8em;\n                    margin-top: 30px;\n                    margin-bottom: 15px;\n                \x7d\n                h3 \x7b\n                    color: #2c3e50;\n                    font-size: 1.4em;\n                    margin-top: 25px;\n                    margin-bottom: 10px;\n                \x7d\n                p \x7b\n                    margin-bottom: 15px;\n                    text-align: justify;\n                \x7d\n                .highlight \x7b\n                    background-color: #fff3cd;\n                    padding: 15px;\n                    border-left: 4px solid #ffc107;\n                    margin: 20px 0;\n                \x7d\n                .faq-section \x7b\n                    background-color: #f8f9fa;\n                    padding: 20px;\n                    border-radius: 8px;\n                    margin: 30px 0;\n                \x7d\n                .faq-item \x7b\n                    margin-bottom: 15px;\n                \x7d\n                .faq-question \x7b\n                    font-weight: bold;\n                    color: #2c3e50;\n                    margin-bottom: 5px;\n                \x7d\n                .image-container \x7b\n                    text-align: center;\n                    margin: 20px 0;\n                \x7d\n                .image-container img \x7b\n                    max-width: 100%;\n                    height: auto;\n                    border-radius: 8px;\n                    box-shadow: 0 2px 8px rgba(0,0,0,0.1);\n                \x7d\n                .conclusion \x7b\n                    background-color: #d4edda;\n                    padding: 20px;\n                    border-radius: 8px;\n                    margin-top: 30px;\n                    border-left: 4px solid #28a745;\n                \x7d\n                .meta-info \x7b\n                    background-color: #e9ecef;\n                    padding: 15px;\n                    border-radius: 5px;\n                    margin-bottom: 20px;\n                    font-size: 0.9em;\n                    color: #6c757d;\n                \x7d\n"

/-- Template text between the keywords meta tag and the meta-info keyword
(style element, body opening, meta-info div). -/
def htmlChunk4 : String :=
  "\">\n            <style>\n" ++ buildHtmlCss ++
  "            </style>\n        </head>\n        <body>\n            <div class=\"article-container\">\n                <div class=\"meta-info\">\n                    <strong>Keyword:</strong> "

/-- Template text between the meta-info keyword and the word count. -/
def htmlChunk5 : String :=
  " | \n                    <strong>Word Count:</strong> "

/-- Template text between the word count and the published date. -/
def htmlChunk6 : String :=
  " | \n                    <strong>Published:</strong> "

/-- Template text between the published date and the h1 title. -/
def htmlChunk7 : String :=
  "\n                </div>\n                \n                <h1>"

/-- Template text between the h1 title and the body content. -/
def htmlChunk8 : String :=
  "</h1>\n                \n                "

/-- Template text between the body content and the image block. -/
def htmlChunk9 : String :=
  "\n                \n                "

/-- Template text between the image block and the summary. -/
def htmlChunk10 : String :=
  "\n                \n                <div class=\"conclusion\">\n                    <h3>Kesimpulan</h3>\n                    <p>"

/-- Template text after the summary (conclusion close, body and html close,
trailing indentation of the f-string). -/
def htmlChunk11 : String :=
  "</p>\n                </div>\n            </div>\n        </body>\n        </html>\n        "

/-- Embedding of `ContentGenerator.build_html`: the f-string template with
its interpolations in source order.  The method reads the wall clock inside
(`datetime.now().strftime('%Y-%m-%d')` at the Published field); the value of
that read is the explicit `today` parameter. -/
def buildHtml (keyword : String) (content : Json) (images : List String) (today : String) :
    String :=
  htmlChunk1 ++ getFStr content ("title") keyword ++
  htmlChunk2 ++ getFStr content ("meta_description") ("") ++
  htmlChunk3 ++ joinedKeywords content ++
  htmlChunk4 ++ keyword ++
  htmlChunk5 ++ getFStr content ("word_count") ("0") ++
  htmlChunk6 ++ today ++
  htmlChunk7 ++ getFStr content ("title") keyword ++
  htmlChunk8 ++ getFStr content ("content") ("") ++
  htmlChunk9 ++ buildImageHtml images ++
  htmlChunk10 ++ getFStr content ("summary") ("") ++
  htmlChunk11

/-- Rendered HTML before the published date (a function of keyword and
content only). -/
def buildHtmlPre (keyword : String) (content : Json) : String :=
  htmlChunk1 ++ getFStr content ("title") keyword ++
  htmlChunk2 ++ getFStr content ("meta_description") ("") ++
  htmlChunk3 ++ joinedKeywords content ++
  htmlChunk4 ++ keyword ++
  htmlChunk5 ++ getFStr content ("word_count") ("0") ++
  htmlChunk6

/-- Rendered HTML after the published date. -/
def buildHtmlPost (keyword : String) (content : Json) (images : List String) : String :=
  htmlChunk7 ++ getFStr content ("title") keyword ++
  htmlChunk8 ++ getFStr content ("content") ("") ++
  htmlChunk9 ++ buildImageHtml images ++
  htmlChunk10 ++ getFStr content ("summary") ("") ++
  htmlChunk11

theorem buildHtml_split (keyword : String) (content : Json) (images : List String)
    (today : String) :
    buildHtml keyword content images today =
      buildHtmlPre keyword content ++ (today ++ buildHtmlPost keyword content images) := by
  unfold buildHtml buildHtmlPre buildHtmlPost
  apply String.ext
  simp [String.data_append, List.append_assoc]

/-- Concrete content document for the C4 counterexample. -/
def c4Content : Json :=
  .obj [("title", .str ("Judul")), ("meta_description", .str ("Meta")),
        ("keywords", .arr [.str ("seo")]), ("word_count", .num 500),
        ("content", .str ("<p>Isi</p>")), ("summary", .str ("Ringkas"))]

/-- C4 counterexample: two calls of `build_html` with byte-identical
(keyword, content, images) inputs on consecutive dates produce different
HTML — the output depends on a wall-clock read made inside the function
(`datetime.now()` at the Published field), so the function is not
time-of-call-independent pure templating as claimed. -/
theorem build_html_wall_clock_cex :
    buildHtml ("seo") c4Content ["img.jpg"] ("2025-01-01") ≠
      buildHtml ("seo") c4Content ["img.jpg"] ("2025-01-02") := by
  intro h
  rw [buildHtml_split, buildHtml_split] at h
  have hd := congrArg String.data h
  simp only [String.data_append] at hd
  have h2 := List.append_cancel_left hd
  have h3 := List.append_cancel_right h2
  exact (by decide : ("2025-01-01").data ≠ ("2025-01-02").data) h3

/-- C4 amended: `build_html` is pure templating given the current date —
its output is a fixed prefix and suffix (functions of keyword, content and
images only) around the date value, so two calls with identical inputs and
the same wall-clock date are byte-identical; but the date is read from the
wall clock inside the function rather than injected as a parameter, so calls
on different dates differ. -/
theorem build_html_deterministic_given_date (keyword : String) (content : Json)
    (images : List String) :
    ∃ pre post : String, ∀ today : String,
      buildHtml keyword content images today = pre ++ (today ++ post) :=
  ⟨buildHtmlPre keyword content, buildHtmlPost keyword content images,
    fun today => buildHtml_split keyword content images today⟩

end Ternak
